import Mathlib

/-!
Shallow embedding of the context-orchestration workflow of a multi-source
RAG research assistant.  The Python sources embedded here are:

  * `src/tools/rag_tool.py`        — `RAGTool._run`, `RAGTool._load_documents`
  * `src/tools/memory_tool.py`     — `MemoryTool._run`
  * `src/tools/web_search_tool.py` — `FirecrawlSearchTool._run`
  * `src/tools/arxiv_tool.py`      — `ArxivTool._run`
  * `src/rag/retriever.py`         — `MilvusVectorDB` (collection state)
  * `src/rag/rag_pipeline.py`      — `RAGPipeline.process_documents`
  * `src/generation/generation.py` — `StructuredResponseGen.generate`, `RESPONSE_SCHEMA`
  * `src/workflows/flow.py`        — `ResearchAssistantFlow` stage methods

External collaborators (Milvus client, Zep, Firecrawl, the ArXiv HTTP API,
OpenAI, `json.loads`) are modelled as oracle parameters: a call that can
raise a Python exception is an `Except String`-valued field of an
environment record, and the surrounding `try/except` blocks of the source
become `match`es on that value.  Python floats are modelled as exact
rationals (`ℚ`); Python strings as Lean `String`s.
-/

/-- Python's parsed-JSON values (the result of `json.loads`). -/
inductive Json where
  | null : Json
  | bool (b : Bool) : Json
  | num (q : ℚ) : Json
  | str (s : String) : Json
  | arr (xs : List Json) : Json
  | obj (fields : List (String × Json)) : Json

/-- Dictionary lookup `d[k]` on a JSON object (first matching key). -/
def Json.getField : Json → String → Option Json
  | .obj fields, k => (fields.find? (fun p => p.1 = k)).map Prod.snd
  | _, _ => none

/-- Python dict item assignment `d[k] = v`: replaces the value of an existing
key in place, otherwise appends the new key at the end. -/
def setField : List (String × Json) → String → Json → List (String × Json)
  | [], k, v => [(k, v)]
  | (k', v') :: rest, k, v =>
    if k' = k then (k, v) :: rest else (k', v') :: setField rest k v

/-- The `status` enum of the Evidence Record contract. -/
inductive Status where
  | OK
  | INSUFFICIENT_CONTEXT
  | ERROR
deriving DecidableEq, Repr

/-- One entry of the `citations` list of an Evidence Record.  The document-RAG
adapter fills all fields; the other adapters fill only `label`/`locator`. -/
structure Citation where
  label : String
  locator : String
  page_number : Option Int := none
  chunk_index : Option Int := none
  source_file : Option String := none
  score : Option ℚ := none
  content : Option String := none
deriving DecidableEq, Repr

/-- The Evidence Record contract every source adapter emits (the dict passed
to `json.dumps` in each tool's `_run`).  Source-specific extra payload fields
(`retrieval_metadata`, `search_results`, `context`, `search_parameters`) are
additional metadata the spec explicitly allows and forbids downstream code to
require; they are not part of the embedded record. -/
structure EvidenceRecord where
  status : Status
  source_used : String
  answer : String
  citations : List Citation
  confidence : ℚ
  error : Option String := none
deriving DecidableEq, Repr

/-- Python `max` over a non-empty float list (`max([...])` in `RAGTool._run`);
on the empty list Python raises, the embedding returns 0 (the branch that
evaluates it guarantees non-emptiness). -/
def listMax : List ℚ → ℚ
  | [] => 0
  | [x] => x
  | x :: y :: rest => max x (listMax (y :: rest))

/-! ## Vector index state (`src/rag/retriever.py`) -/

/-- One row of the Milvus collection (text chunk, embedding, metadata). -/
structure Row where
  text : String
  embedding : List ℚ
  page_number : Int
  chunk_index : Int
  source_file : String
deriving DecidableEq, Repr

/-- The state of the shared vector index: `none` when the collection does not
exist, `some rows` when it exists with the given rows. -/
structure VectorDBState where
  collection : Option (List Row)
deriving DecidableEq, Repr

/-- `MilvusVectorDB._ensure_collection`: if the collection already exists it
is dropped, then a fresh empty collection is created.  Runs inside
`MilvusVectorDB.__init__`, i.e. whenever the RAG pipeline is constructed. -/
def MilvusVectorDB.ensure_collection (_st : VectorDBState) : VectorDBState :=
  { collection := some [] }

/-- `MilvusVectorDB.insert`: appends rows to the collection. -/
def MilvusVectorDB.insertRows (st : VectorDBState) (rows : List Row) : VectorDBState :=
  { collection := match st.collection with
      | some existing => some (existing ++ rows)
      | none => some rows }

/-- `MilvusVectorDB.get_collection_count`: row count of the collection; any
exception (e.g. the collection does not exist) is caught and 0 returned. -/
def MilvusVectorDB.get_collection_count (st : VectorDBState) : Nat :=
  match st.collection with
  | some rows => rows.length
  | none => 0

/-! ## Document-RAG adapter (`src/tools/rag_tool.py`, `src/rag/rag_pipeline.py`) -/

/-- One hit returned by `RAGPipeline.retrieve_context` /
`MilvusVectorDB.search` (dict with text, score and chunk metadata). -/
structure ChunkResult where
  text : String
  score : ℚ
  page_number : Int
  chunk_index : Int
  source_file : String
deriving DecidableEq, Repr

/-- Oracle environment for the document-RAG adapter's external calls.
`retrieveContext query top_k` is the outcome of
`rag_pipeline.retrieve_context` (embedding + vector search, may raise);
`parseAndEmbed path` is the outcome of the per-document upload → parse →
embed portion of `RAGPipeline.process_documents` (may raise), yielding the
rows to insert; `fileExists` is `os.path.exists`. -/
structure RAGEnv where
  retrieveContext : String → Nat → Except String (List ChunkResult)
  parseAndEmbed : String → Except String (List Row)
  fileExists : String → Bool

/-- `RAGPipeline.process_documents`: per document, parse and embed (a failure
raises, leaving the inserts already made in place), then insert the rows into
the vector index.  Returns (processed document count, total chunk count) and
the final index state. -/
def RAGPipeline.process_documents (env : RAGEnv) :
    VectorDBState → List String → Except String (Nat × Nat) × VectorDBState
  | st, [] => (.ok (0, 0), st)
  | st, path :: rest =>
    match env.parseAndEmbed path with
    | .error e => (.error e, st)
    | .ok rows =>
      let st' := MilvusVectorDB.insertRows st rows
      match RAGPipeline.process_documents env st' rest with
      | (.ok (n, k), st'') => (.ok (n + 1, k + rows.length), st'')
      | (.error e, st'') => (.error e, st'')

/-- Python `"Missing files: {missing_files}"`; list formatting abstracted. -/
def missingFilesMessage (missing : List String) : String :=
  "Missing files: " ++ toString missing

/-- `RAGTool._load_documents`: validates paths, runs
`RAGPipeline.process_documents`, catches every exception into an ERROR
record. -/
def RAGTool.load_documents (env : RAGEnv) (st : VectorDBState)
    (document_paths : List String) : EvidenceRecord × VectorDBState :=
  if document_paths = [] then
    ({ status := .ERROR, source_used := "RAG",
       answer := "No document paths provided",
       citations := [], confidence := 0 }, st)
  else
    let missing := document_paths.filter (fun p => ¬ env.fileExists p)
    if missing ≠ [] then
      ({ status := .ERROR, source_used := "RAG",
         answer := missingFilesMessage missing,
         citations := [], confidence := 0 }, st)
    else
      match RAGPipeline.process_documents env st document_paths with
      | (.ok (n, k), st') =>
        ({ status := .OK, source_used := "RAG",
           answer := "Successfully processed " ++ toString n ++
             " documents with " ++ toString k ++ " total chunks.",
           citations := document_paths.map (fun p =>
             { label := "Processed: " ++ p, locator := p }),
           confidence := 96 / 100 }, st')
      | (.error e, st') =>
        ({ status := .ERROR, source_used := "RAG",
           answer := "Document processing failed: " ++ e,
           citations := [], confidence := 0, error := some e }, st')

/-- Models Python's `f"{score:.3f}"` float formatting (decimal rendering of
the rational is abstracted to `toString`). -/
def formatScore (q : ℚ) : String := toString q

/-- `filename = source_file.split("/")[-1] if source_file != "unknown" else "unknown"` -/
def ragFilename (source_file : String) : String :=
  if source_file = "unknown" then "unknown"
  else (source_file.splitOn "/").getLastD ""

/-- The per-hit context block string built in `RAGTool._run`'s OK branch. -/
def ragContextBlock (i : Nat) (r : ChunkResult) : String :=
  "**Context " ++ toString (i + 1) ++ " (Score: " ++ formatScore r.score ++
    ", Page " ++ toString r.page_number ++ ", Chunk " ++ toString r.chunk_index ++
    ")**\n" ++ r.text.take 500 ++ "..."

/-- The per-hit citation dict built in `RAGTool._run`'s OK branch. -/
def ragCitation (r : ChunkResult) : Citation :=
  { label := ragFilename r.source_file ++ " - Page " ++ toString r.page_number ++
      ", Chunk " ++ toString r.chunk_index
    locator := "page_" ++ toString r.page_number ++ "_chunk_" ++ toString r.chunk_index
    page_number := some r.page_number
    chunk_index := some r.chunk_index
    source_file := some (ragFilename r.source_file)
    score := some r.score
    content := some r.text }

/-- The retrieval phase of `RAGTool._run` (the code after the lazy-ingest
block): calls `retrieve_context`; an empty hit list yields
INSUFFICIENT_CONTEXT, hits yield an OK record whose confidence is the
maximum hit score, and a raised exception is caught by the method's outer
`except` into an ERROR record. -/
def ragRetrievePhase (env : RAGEnv) (query : String) (top_k : Nat) : EvidenceRecord :=
  match env.retrieveContext query top_k with
  | .error e =>
    { status := .ERROR, source_used := "RAG",
      answer := "RAG search failed: " ++ e,
      citations := [], confidence := 0, error := some e }
  | .ok [] =>
    { status := .INSUFFICIENT_CONTEXT, source_used := "RAG",
      answer := "No relevant context found for query: '" ++ query ++ "'",
      citations := [], confidence := 0 }
  | .ok results@(_ :: _) =>
    { status := .OK, source_used := "RAG",
      answer := "Retrieved " ++ toString results.length ++
        " relevant context chunks:\n\n" ++
        String.intercalate "\n\n"
          (results.enum.map (fun p => ragContextBlock p.1 p.2)),
      citations := results.map ragCitation,
      confidence := listMax (results.map (fun r => r.score)) }

/-- `RAGTool._run`: lazy ingest when the index is empty and paths are
supplied, then retrieval; every backend exception is converted into an
ERROR record.  Returns the record together with the final index state. -/
def RAGTool.run (env : RAGEnv) (st : VectorDBState) (query : String)
    (top_k : Nat := 3) (document_paths : List String := []) :
    EvidenceRecord × VectorDBState :=
  let doc_count := MilvusVectorDB.get_collection_count st
  if doc_count = 0 then
    if document_paths = [] then
      ({ status := .INSUFFICIENT_CONTEXT, source_used := "RAG",
         answer := "No documents have been loaded into the RAG system. Please provide document_paths to load documents first, or ensure documents have been previously loaded.",
         citations := [], confidence := 0 }, st)
    else
      let (load_result, st') := RAGTool.load_documents env st document_paths
      if load_result.status = .ERROR then (load_result, st')
      else if MilvusVectorDB.get_collection_count st' = 0 then
        ({ status := .INSUFFICIENT_CONTEXT, source_used := "RAG",
           answer := "Failed to load documents into the RAG system.",
           citations := [], confidence := 0 }, st')
      else (ragRetrievePhase env query top_k, st')
  else
    (ragRetrievePhase env query top_k, st)

/-! ## Memory adapter (`src/tools/memory_tool.py`) -/

/-- Oracle environment for the memory adapter: the outcome of
`memory_layer.get_context_block()` (a Zep call that may raise; an empty
string means no indexable memory exists for the thread). -/
structure MemoryEnv where
  getContextBlock : Except String String

/-- `MemoryTool._run`: non-empty context yields OK, empty context yields
INSUFFICIENT_CONTEXT, a raised exception is caught into an ERROR record. -/
def MemoryTool.run (env : MemoryEnv) (_query : String) : EvidenceRecord :=
  match env.getContextBlock with
  | .ok context =>
    if context ≠ "" then
      { status := .OK, source_used := "MEMORY",
        answer := "Retrieved relevant context from previous conversations: " ++ context,
        citations := [{ label := "Conversation History", locator := "zep:memory" }],
        confidence := 98 / 100 }
    else
      { status := .INSUFFICIENT_CONTEXT, source_used := "MEMORY",
        answer := "No relevant conversation history found",
        citations := [], confidence := 0 }
  | .error e =>
    { status := .ERROR, source_used := "MEMORY",
      answer := "Memory retrieval failed: " ++ e,
      citations := [], confidence := 0 }

/-! ## Web-search adapter (`src/tools/web_search_tool.py`) -/

/-- One entry of the Firecrawl response's `web` list; `none` fields model
missing/None attributes read with `getattr`. -/
structure WebResult where
  title : Option String
  url : Option String
  description : Option String
  category : Option String
deriving DecidableEq, Repr

/-- Python `getattr(x, attr, default) or fallback`: a missing/None attribute
and the empty string are both falsy and replaced by the fallback. -/
def pyGetattrOr (x : Option String) (fallback : String) : String :=
  match x with
  | none => fallback
  | some s => if s = "" then fallback else s

/-- Oracle environment for the web-search adapter: `api_key` is the tool's
configured key; `search query limit` is the outcome of
`Firecrawl(...).search(query, limit=limit)` — `none` inside a successful
call models a response whose `web` attribute is not a list. -/
structure WebEnv where
  api_key : String
  search : String → Nat → Except String (Option (List WebResult))

/-- The normalized per-hit dict built in `FirecrawlSearchTool._run`. -/
structure WebSearchEntry where
  title : String
  url : String
  content : String
  category : Option String
deriving DecidableEq, Repr

/-- The per-hit normalization loop body of `FirecrawlSearchTool._run`:
defaulted attribute reads, snippet truncation to 1000 characters with an
ellipsis, and a placeholder for an empty snippet. -/
def webEntry (r : WebResult) : WebSearchEntry :=
  let title := pyGetattrOr r.title "No title"
  let url := pyGetattrOr r.url ""
  let content := pyGetattrOr r.description ""
  let snippet := if content.length > 1000 then content.take 1000 ++ "..." else content
  let snippet := if snippet = "" then "[no description available]" else snippet
  { title := title, url := url, content := snippet, category := r.category }

/-- The per-entry answer block built in `FirecrawlSearchTool._run`. -/
def webAnswerPart (e : WebSearchEntry) : String :=
  "**" ++ e.title ++ "**\nURL: " ++ e.url ++ "\nContent: " ++ e.content.take 500 ++ "..."

/-- `FirecrawlSearchTool._run`: missing API key yields ERROR; a missing or
empty result list yields INSUFFICIENT_CONTEXT; hits yield an OK record with
confidence 0.97; a raised exception is caught into an ERROR record. -/
def FirecrawlSearchTool.run (env : WebEnv) (query : String) (limit : Nat := 3) :
    EvidenceRecord :=
  if env.api_key = "" then
    { status := .ERROR, source_used := "WEB",
      answer := "Web search unavailable - API key not configured.",
      citations := [], confidence := 0, error := some "Missing API key" }
  else
    match env.search query limit with
    | .error e =>
      { status := .ERROR, source_used := "WEB",
        answer := "Web search unavailable due to technical issues: " ++ e,
        citations := [], confidence := 0, error := some e }
    | .ok none =>
      { status := .INSUFFICIENT_CONTEXT, source_used := "WEB",
        answer := "No relevant web search results found.",
        citations := [], confidence := 0 }
    | .ok (some []) =>
      { status := .INSUFFICIENT_CONTEXT, source_used := "WEB",
        answer := "No relevant web search results found.",
        citations := [], confidence := 0 }
    | .ok (some results@(_ :: _)) =>
      let search_results := results.map webEntry
      { status := .OK, source_used := "WEB",
        answer := String.intercalate "\n\n---\n\n" (search_results.map webAnswerPart),
        citations := search_results.map (fun e => { label := e.title, locator := e.url }),
        confidence := 97 / 100 }

/-! ## Academic-search adapter (`src/tools/arxiv_tool.py`) -/

/-- One paper extracted from the ArXiv Atom feed by
`ArxivTool._parse_arxiv_response`. -/
structure Paper where
  title : String
  authors : String
  abstract : String
  url : String
  published : String
  category : String
deriving DecidableEq, Repr

/-- `ArxivTool._build_arxiv_query`: field-scoped query plus optional
category and author filters joined with AND. -/
def ArxivTool.build_arxiv_query (query : String) (search_field : String)
    (category : Option String) (author : Option String) : String :=
  let base :=
    if search_field = "title" then "ti:\"" ++ query ++ "\""
    else if search_field = "author" then "au:\"" ++ query ++ "\""
    else if search_field = "abstract" then "abs:\"" ++ query ++ "\""
    else if search_field = "category" then "cat:\"" ++ query ++ "\""
    else "all:\"" ++ query ++ "\""
  let parts := [base] ++
    (match category with | some c => ["cat:" ++ c] | none => []) ++
    (match author with | some a => ["au:\"" ++ a ++ "\""] | none => [])
  String.intercalate " AND " parts

/-- Oracle environment for the academic-search adapter:
`httpResponse search_query` is the outcome of the `requests.get` call plus
`raise_for_status` (raises on network/HTTP failure, otherwise yields the
response body); `parsePapers body` is the outcome of
`_parse_arxiv_response` (raises on malformed XML, otherwise yields the
extracted papers). -/
structure ArxivEnv where
  httpResponse : String → Except String String
  parsePapers : String → Except String (List Paper)

/-- The per-paper answer block built in `ArxivTool._run`. -/
def arxivAnswerPart (i : Nat) (p : Paper) : String :=
  "**" ++ toString (i + 1) ++ ". " ++ p.title ++ "**\nAuthors: " ++ p.authors ++
    "\nCategory: " ++ p.category ++ "\nPublished: " ++ p.published ++
    "\nAbstract: " ++ p.abstract.take 300 ++ "...\nURL: " ++ p.url

/-- `ArxivTool._run`: builds the query, performs the HTTP call and parses the
feed; no papers yields INSUFFICIENT_CONTEXT, papers yield an OK record with
confidence 0.92, and any raised exception is caught into an ERROR record. -/
def ArxivTool.run (env : ArxivEnv) (query : String) (search_field : String := "all")
    (category : Option String := none) (author : Option String := none)
    (_max_results : Nat := 5) : EvidenceRecord :=
  let search_query := ArxivTool.build_arxiv_query query search_field category author
  match env.httpResponse search_query with
  | .error e =>
    { status := .ERROR, source_used := "ARXIV",
      answer := "ArXiv search failed: " ++ e,
      citations := [], confidence := 0, error := some e }
  | .ok body =>
    match env.parsePapers body with
    | .error e =>
      { status := .ERROR, source_used := "ARXIV",
        answer := "ArXiv search failed: " ++ e,
        citations := [], confidence := 0, error := some e }
    | .ok [] =>
      { status := .INSUFFICIENT_CONTEXT, source_used := "ARXIV",
        answer := "No papers found for query: '" ++ query ++ "'",
        citations := [], confidence := 0 }
    | .ok papers@(_ :: _) =>
      { status := .OK, source_used := "ARXIV",
        answer := "Found " ++ toString papers.length ++ " relevant papers:\n\n" ++
          String.intercalate "\n\n---\n\n"
            (papers.enum.map (fun q => arxivAnswerPart q.1 q.2)),
        citations := papers.map (fun p =>
          { label := p.title ++ " (" ++ p.published ++ ")", locator := p.url }),
        confidence := 92 / 100 }

/-! ## Context Gatherer and Relevance Evaluator stages (`src/workflows/flow.py`) -/

/-- `ResearchAssistantFlow._parse_agent_result`: `json.loads` the raw agent
output; on a `JSONDecodeError` wrap the raw text into a minimal Evidence
Record dict.  `jsonLoads` is the `json.loads` oracle (`none` = the string is
not valid JSON and the call raises `JSONDecodeError`). -/
def parse_agent_result (jsonLoads : String → Option Json) (raw_result : String) : Json :=
  match jsonLoads raw_result with
  | some v => v
  | none =>
    Json.obj [("status", .str "OK"), ("source_used", .str "UNKNOWN"),
              ("answer", .str raw_result), ("citations", .arr []),
              ("confidence", .num (1 / 2))]

/-- The `context_sources` dict built by
`ResearchAssistantFlow.gather_context_from_all_sources` from the four crew
task outputs (`results.tasks_output[0..3].raw`). -/
def gather_context_from_all_sources (jsonLoads : String → Option Json)
    (rag_raw memory_raw web_raw tool_raw : String) : List (String × Json) :=
  [("rag_result", parse_agent_result jsonLoads rag_raw),
   ("memory_result", parse_agent_result jsonLoads memory_raw),
   ("web_result", parse_agent_result jsonLoads web_raw),
   ("tool_result", parse_agent_result jsonLoads tool_raw)]

/-- The `ContextEvaluationResult` pydantic model of `src/workflows/flow.py`:
the validated output schema of the context-evaluation agent.  Its fields are
only type-checked by pydantic; no relation to the Evidence Bundle keys is
imposed. -/
structure ContextEvaluationResult where
  relevant_sources : List String
  filtered_context : List (String × Json)
  relevance_scores : List (String × ℚ)
  reasoning : String

/-- The evaluation outcome stored in the flow state: the validated pydantic
model's dump, or the raw-fallback dict when pydantic output is unavailable. -/
inductive EvaluationData where
  | validated (r : ContextEvaluationResult)
  | rawFallback (raw : String)

/-- The fields `evaluate_context_relevance` adds to the flow state. -/
structure EvaluationStageOutput where
  context_sources : List (String × Json)
  filtered_context : Json
  evaluation_result : EvaluationData
  evaluation_raw : String

/-- `ResearchAssistantFlow.evaluate_context_relevance`: if the evaluator
crew's pydantic output is a `ContextEvaluationResult`, its
`filtered_context` and model dump are stored as-is; otherwise the raw output
is re-parsed through `_parse_agent_result` and stored under a raw-fallback
key.  The incoming `context_sources` bundle is spread unchanged into the
returned state. -/
def evaluate_context_relevance (jsonLoads : String → Option Json)
    (context_sources : List (String × Json))
    (pydantic_output : Option ContextEvaluationResult) (raw : String) :
    EvaluationStageOutput :=
  match pydantic_output with
  | some out =>
    { context_sources := context_sources
      filtered_context := Json.obj out.filtered_context
      evaluation_result := .validated out
      evaluation_raw := raw }
  | none =>
    { context_sources := context_sources
      filtered_context := parse_agent_result jsonLoads raw
      evaluation_result := .rawFallback raw
      evaluation_raw := raw }

/-! ## Memory summarization (`ResearchAssistantFlow._summarize_for_memory`) -/

/-- Python `str.rfind(c)` on a list of characters: the highest index at which
`c` occurs, or -1 when it does not occur. -/
def rfind (c : Char) : List Char → Int
  | [] => -1
  | a :: l =>
    let r := rfind c l
    if r ≥ 0 then r + 1
    else if a = c then 0 else -1

/-- `" [Response truncated for memory storage]"` (sentence-boundary cut). -/
def sentenceMarker : List Char := " [Response truncated for memory storage]".data

/-- `"... [Response truncated for memory storage]"` (word-boundary/hard cut). -/
def ellipsisMarker : List Char := "... [Response truncated for memory storage]".data

/-- `ResearchAssistantFlow._summarize_for_memory`: inputs within the budget
are returned unchanged; longer inputs are cut to the budget, then the cut is
moved back to the last sentence end when it lies in the tail 30% of the
budget, else to the last space when it lies in the tail 20%, else kept as a
hard cut, and a truncation marker is appended.  Python's float thresholds
`max_length * 0.7` / `max_length * 0.8` are modelled exactly as the rational
comparisons `10*i > 7*m` / `10*i > 8*m`. -/
def summarize_for_memory (response : List Char) (max_length : Nat := 2000) :
    List Char :=
  if response.length ≤ max_length then response
  else
    let truncated := response.take max_length
    let last_period := rfind '.' truncated
    let last_exclamation := rfind '!' truncated
    let last_question := rfind '?' truncated
    let last_sentence_end := max last_period (max last_exclamation last_question)
    if 10 * last_sentence_end > 7 * (max_length : Int) then
      truncated.take (last_sentence_end + 1).toNat ++ sentenceMarker
    else
      let last_space := rfind ' ' truncated
      if 10 * last_space > 8 * (max_length : Int) then
        truncated.take last_space.toNat ++ ellipsisMarker
      else
        truncated ++ ellipsisMarker

/-! ## Structured Evidence Generator (`src/generation/generation.py`) -/

/-- The `status` enum of `RESPONSE_SCHEMA`. -/
def schemaStatusOk (s : String) : Bool :=
  s = "OK" ∨ s = "INSUFFICIENT_CONTEXT"

/-- The `source_used` enum of `RESPONSE_SCHEMA`. -/
def schemaSourceOk (s : String) : Bool :=
  s = "MEMORY" ∨ s = "RAG" ∨ s = "WEB" ∨ s = "TOOL" ∨ s = "NONE"

/-- A citation item of `RESPONSE_SCHEMA`: an object with exactly the required
string fields `label` and `locator` (`additionalProperties: false`). -/
def schemaCitationOk : Json → Bool
  | .obj fields =>
    (fields.all (fun p => p.1 = "label" ∨ p.1 = "locator")) &&
    (match (Json.obj fields).getField "label" with
     | some (.str _) => true | _ => false) &&
    (match (Json.obj fields).getField "locator" with
     | some (.str _) => true | _ => false)
  | _ => false

/-- The required field names of `RESPONSE_SCHEMA`. -/
def schemaRequiredFields : List String :=
  ["status", "source_used", "answer", "citations", "confidence", "missing"]

/-- Conformance with `RESPONSE_SCHEMA` of `src/generation/generation.py`: an
object with exactly the six required fields (`additionalProperties: false`),
`status` and `source_used` restricted to their enums, `answer` a string,
`citations` an array of valid citation items, `confidence` a number in
[0, 1], `missing` an array of strings. -/
def conformsToResponseSchema : Json → Bool
  | .obj fields =>
    (fields.all (fun p => schemaRequiredFields.contains p.1)) &&
    (match (Json.obj fields).getField "status" with
     | some (.str s) => schemaStatusOk s | _ => false) &&
    (match (Json.obj fields).getField "source_used" with
     | some (.str s) => schemaSourceOk s | _ => false) &&
    (match (Json.obj fields).getField "answer" with
     | some (.str _) => true | _ => false) &&
    (match (Json.obj fields).getField "citations" with
     | some (.arr xs) => xs.all schemaCitationOk | _ => false) &&
    (match (Json.obj fields).getField "confidence" with
     | some (.num q) => 0 ≤ q ∧ q ≤ 1 | _ => false) &&
    (match (Json.obj fields).getField "missing" with
     | some (.arr xs) => xs.all (fun x => match x with | .str _ => true | _ => false)
     | _ => false)
  | _ => false

/-- `StructuredResponseGen.generate` after the chat-completions call.
`response_content` is the outcome of reading
`response.choices[0].message.content` (a failure is re-raised as
`RuntimeError("Unexpected responses payload shape: ...")`); `jsonLoads` is
the `json.loads` oracle (`none` = `JSONDecodeError`, re-raised as
`RuntimeError("Model did not return valid JSON: ...")`).  On valid JSON the
caller-supplied `source_used` is written into the parsed dict
(`data["source_used"] = source_used`) and the dict returned; item assignment
on a non-dict JSON value raises an uncaught `TypeError`.  No client-side
check against `RESPONSE_SCHEMA` is performed. -/
def StructuredResponseGen.generate (jsonLoads : String → Option Json)
    (response_content : Except String String) (source_used : String := "RAG") :
    Except String Json :=
  match response_content with
  | .error e => .error ("Unexpected responses payload shape: " ++ e)
  | .ok output_text =>
    match jsonLoads output_text with
    | none => .error ("Model did not return valid JSON: JSONDecodeError\nRaw: " ++
        output_text.take 400)
    | some (.obj fields) => .ok (.obj (setField fields "source_used" (.str source_used)))
    | some _ => .error "TypeError: item assignment on non-dict JSON value"

/-! ## Statement-level predicates and concrete fixtures -/

/-- The keys of a JSON object (empty for non-objects). -/
def Json.objKeys : Json → List String
  | .obj fields => fields.map Prod.fst
  | _ => []

/-- All six required fields of `RESPONSE_SCHEMA` are present. -/
def hasRequiredFields (j : Json) : Bool :=
  schemaRequiredFields.all (fun k => (j.getField k).isSome)

/-- Sentence-terminating characters considered by
`_summarize_for_memory` (`.`, `!`, `?`). -/
def isSentenceChar (c : Char) : Bool :=
  c = '.' || (c = '!' || c = '?')

/-- The index of the last character of `l` satisfying `p`, Python
`str.rfind` style: -1 when no character satisfies `p`, otherwise the
greatest such index. -/
def IsLastIdx (p : Char → Bool) (l : List Char) (r : Int) : Prop :=
  (r = -1 ∧ ∀ i c, l.get? i = some c → p c = false) ∨
  (∃ j : Nat, r = (j : Int) ∧ (∃ c, l.get? j = some c ∧ p c = true) ∧
    ∀ i c, j < i → l.get? i = some c → p c = false)

/-- A concrete vector-index row (fixture). -/
def sampleRow : Row :=
  { text := "chunk text", embedding := [1, 0], page_number := 1,
    chunk_index := 0, source_file := "docs/paper.pdf" }

/-- A vector-index state holding one ingested row (fixture). -/
def oneRowState : VectorDBState := { collection := some [sampleRow] }

/-- A document-RAG environment whose retrieval backend reports a similarity
score of 2.0 for its single hit (fixture: Milvus scores are not clamped). -/
def highScoreRAGEnv : RAGEnv :=
  { retrieveContext := fun _ _ => .ok
      [{ text := "text", score := 2, page_number := 1, chunk_index := 3,
         source_file := "docs/p.pdf" }]
    parseAndEmbed := fun _ => .error "unused"
    fileExists := fun _ => false }

/-- A document-RAG environment whose retrieval backend raises (fixture). -/
def throwingRAGEnv : RAGEnv :=
  { retrieveContext := fun _ _ => .error "connection refused"
    parseAndEmbed := fun _ => .error "connection refused"
    fileExists := fun _ => false }

/-- A document-RAG environment whose retrieval backend succeeds with an
empty hit list (fixture). -/
def emptyResultRAGEnv : RAGEnv :=
  { retrieveContext := fun _ _ => .ok []
    parseAndEmbed := fun _ => .error "unused"
    fileExists := fun _ => true }

/-- A `json.loads` oracle that fails on every input (fixture). -/
def failingJsonLoads : String → Option Json := fun _ => none

/-- An evaluator output shaped like the `schema_extra` example of
`ContextEvaluationResult` in `src/workflows/flow.py`: source names such as
"RAG" and "Web", not Evidence Bundle keys (fixture). -/
def exampleEvaluationOutput : ContextEvaluationResult :=
  { relevant_sources := ["RAG", "Web"]
    filtered_context := [("RAG", Json.str "Relevant document context...")]
    relevance_scores := [("RAG", 95 / 100), ("Web", 85 / 100)]
    reasoning := "RAG and Web sources contain highly relevant information." }

/-- An Evidence Bundle produced by the gather stage (fixture). -/
def exampleBundle : List (String × Json) :=
  gather_context_from_all_sources failingJsonLoads
    "rag raw" "memory raw" "web raw" "tool raw"

/-- The fields of a model reply conforming to `RESPONSE_SCHEMA` (fixture). -/
def conformingFields : List (String × Json) :=
  [("status", .str "OK"), ("source_used", .str "NONE"),
   ("answer", .str "grounded answer"),
   ("citations", .arr [Json.obj [("label", .str "Doc"), ("locator", .str "page_1")]]),
   ("confidence", .num 1), ("missing", .arr [])]

/-- A model reply conforming to `RESPONSE_SCHEMA` (fixture). -/
def conformingReply : Json := Json.obj conformingFields

/-- A `json.loads` oracle returning the conforming reply (fixture). -/
def conformingJsonLoads : String → Option Json := fun _ => some conformingReply

/-- A `json.loads` oracle returning the empty JSON object, which violates
`RESPONSE_SCHEMA` (fixture). -/
def emptyObjectJsonLoads : String → Option Json := fun _ => some (Json.obj [])

/-! ## Helper lemmas -/

theorem listMax_le_one : ∀ l : List ℚ, (∀ x ∈ l, x ≤ 1) → listMax l ≤ 1
  | [], _ => by simp [listMax]
  | [x], h => by simpa [listMax] using h x (by simp)
  | x :: y :: rest, h => by
    simp only [listMax]
    exact max_le (h x (by simp))
      (listMax_le_one (y :: rest) (fun z hz => h z (List.mem_cons_of_mem x hz)))

theorem listMax_nonneg : ∀ l : List ℚ, (∀ x ∈ l, 0 ≤ x) → 0 ≤ listMax l
  | [], _ => by simp [listMax]
  | [x], h => by simpa [listMax] using h x (by simp)
  | x :: _ :: _, h => by
    simp only [listMax]
    exact le_max_of_le_left (h x (by simp))

theorem getField_cons (k₀ : String) (v₀ : Json) (rest : List (String × Json)) (k : String) :
    Json.getField (.obj ((k₀, v₀) :: rest)) k =
      if k₀ = k then some v₀ else Json.getField (.obj rest) k := by
  by_cases h : k₀ = k
  · simp [Json.getField, List.find?, h]
  · simp [Json.getField, List.find?, h]

theorem getField_setField_self : ∀ (fields : List (String × Json)) (k : String) (v : Json),
    Json.getField (.obj (setField fields k v)) k = some v
  | [], k, v => by simp [setField, getField_cons]
  | (k', v') :: rest, k, v => by
    by_cases h : k' = k
    · subst h
      simp [setField, getField_cons]
    · rw [setField, if_neg h, getField_cons, if_neg h]
      exact getField_setField_self rest k v

theorem getField_setField_other :
    ∀ (fields : List (String × Json)) (k k' : String) (v : Json), k' ≠ k →
    Json.getField (.obj (setField fields k v)) k' = Json.getField (.obj fields) k'
  | [], k, k', v, hne => by
    rw [setField, getField_cons, if_neg (fun hh => hne hh.symm)]
  | (k₀, v₀) :: rest, k, k', v, hne => by
    by_cases h : k₀ = k
    · subst h
      rw [setField, if_pos rfl, getField_cons, getField_cons]
      by_cases h' : k₀ = k'
      · exact absurd h'.symm hne
      · rw [if_neg h', if_neg (fun hh => hne hh.symm)]
    · rw [setField, if_neg h, getField_cons, getField_cons]
      by_cases h' : k₀ = k'
      · rw [if_pos h', if_pos h']
      · rw [if_neg h', if_neg h']
        exact getField_setField_other rest k k' v hne

/-! ## Claim theorems -/

/-- Claim C2: after a successful gather stage, the Evidence Bundle built by
`gather_context_from_all_sources` has exactly the four fixed keys
`rag_result`, `memory_result`, `web_result`, `tool_result` — no more and no
fewer — regardless of what the four adapters returned. -/
theorem evidence_bundle_has_exactly_four_keys
    (jsonLoads : String → Option Json) (rag_raw memory_raw web_raw tool_raw : String) :
    (gather_context_from_all_sources jsonLoads
        rag_raw memory_raw web_raw tool_raw).map Prod.fst =
      ["rag_result", "memory_result", "web_result", "tool_result"] := rfl

/-- Claim C6: an adapter output string that fails JSON parsing is wrapped by
`_parse_agent_result` into a minimal Evidence Record with exactly status=OK,
source_used=UNKNOWN, the raw text as answer, empty citations, and
confidence=0.5; a string that parses is returned as-is. -/
theorem parse_agent_result_spec (jsonLoads : String → Option Json) (raw : String) :
    (jsonLoads raw = none →
      parse_agent_result jsonLoads raw =
        Json.obj [("status", .str "OK"), ("source_used", .str "UNKNOWN"),
                  ("answer", .str raw), ("citations", .arr []),
                  ("confidence", .num (1 / 2))]) ∧
    (∀ v, jsonLoads raw = some v → parse_agent_result jsonLoads raw = v) := by
  constructor
  · intro h
    simp [parse_agent_result, h]
  · intro v h
    simp [parse_agent_result, h]

/-- Witness for claim C6 at concrete inputs: a non-JSON string is wrapped,
a parsed value is passed through. -/
theorem parse_agent_result_spec_witness :
    parse_agent_result failingJsonLoads "plain text" =
      Json.obj [("status", .str "OK"), ("source_used", .str "UNKNOWN"),
                ("answer", .str "plain text"), ("citations", .arr []),
                ("confidence", .num (1 / 2))] ∧
    parse_agent_result conformingJsonLoads "x" = conformingReply :=
  ⟨(parse_agent_result_spec failingJsonLoads "plain text").1 rfl,
   (parse_agent_result_spec conformingJsonLoads "x").2 conformingReply rfl⟩

/-- Claim C10: whenever `StructuredResponseGen.generate` returns a record,
the record's source_used equals the caller-supplied argument — the model's
own choice is always overwritten. -/
theorem generate_overwrites_source_used
    (jsonLoads : String → Option Json) (response_content : Except String String)
    (src : String) (data : Json)
    (h : StructuredResponseGen.generate jsonLoads response_content src = .ok data) :
    data.getField "source_used" = some (.str src) := by
  cases response_content with
  | error e => simp [StructuredResponseGen.generate] at h
  | ok t =>
    cases hj : jsonLoads t with
    | none => simp [StructuredResponseGen.generate, hj] at h
    | some v =>
      cases v with
      | obj fields =>
        simp only [StructuredResponseGen.generate, hj, Except.ok.injEq] at h
        rw [← h]
        exact getField_setField_self fields _ _
      | null => simp [StructuredResponseGen.generate, hj] at h
      | bool b => simp [StructuredResponseGen.generate, hj] at h
      | num q => simp [StructuredResponseGen.generate, hj] at h
      | str s => simp [StructuredResponseGen.generate, hj] at h
      | arr xs => simp [StructuredResponseGen.generate, hj] at h

/-- Witness for claim C10 at a concrete input: the model said nothing about
source_used, the returned record carries the caller's "WEB". -/
theorem generate_overwrites_source_used_witness :
    (Json.obj [("source_used", Json.str "WEB")]).getField "source_used" =
      some (.str "WEB") :=
  generate_overwrites_source_used emptyObjectJsonLoads (.ok "{}") "WEB"
    (Json.obj [("source_used", Json.str "WEB")]) rfl

/-- Claim C3 fails on the code: `evaluate_context_relevance` stores the
evaluator model's validated output as-is.  With the bundle holding the four
fixed keys and the model answering in the style of the source's own
`ContextEvaluationResult.schema_extra` example ("RAG"/"Web" source names),
`relevant_sources` is not a subset of the Evidence Bundle keys and the keys
of `filtered_context` differ from `relevant_sources`. -/
theorem evaluation_invariant_counterexample :
    (evaluate_context_relevance failingJsonLoads exampleBundle
        (some exampleEvaluationOutput) "raw").evaluation_result =
      .validated exampleEvaluationOutput ∧
    (evaluate_context_relevance failingJsonLoads exampleBundle
        (some exampleEvaluationOutput) "raw").filtered_context =
      Json.obj exampleEvaluationOutput.filtered_context ∧
    exampleBundle.map Prod.fst =
      ["rag_result", "memory_result", "web_result", "tool_result"] ∧
    "RAG" ∈ exampleEvaluationOutput.relevant_sources ∧
    "RAG" ∉ exampleBundle.map Prod.fst ∧
    "Web" ∈ exampleEvaluationOutput.relevant_sources ∧
    "Web" ∉ (Json.obj exampleEvaluationOutput.filtered_context).objKeys := by
  refine ⟨rfl, rfl, rfl, ?_, ?_, ?_, ?_⟩ <;> decide

/-- Claim C3 amended: the evaluate stage enforces no invariant between the
model's output and the Evidence Bundle — the validated `filtered_context`
and `relevant_sources` are passed through exactly as the model produced
them (and on pydantic failure the raw text is stored as a fallback), while
the bundle itself is carried through unchanged. -/
theorem evaluation_passes_model_output_through
    (jsonLoads : String → Option Json) (bundle : List (String × Json))
    (out : ContextEvaluationResult) (raw : String) :
    (evaluate_context_relevance jsonLoads bundle (some out) raw).filtered_context =
      Json.obj out.filtered_context ∧
    (evaluate_context_relevance jsonLoads bundle (some out) raw).evaluation_result =
      .validated out ∧
    (evaluate_context_relevance jsonLoads bundle (some out) raw).context_sources =
      bundle ∧
    (evaluate_context_relevance jsonLoads bundle none raw).evaluation_result =
      .rawFallback raw ∧
    (evaluate_context_relevance jsonLoads bundle none raw).filtered_context =
      parse_agent_result jsonLoads raw ∧
    (evaluate_context_relevance jsonLoads bundle none raw).context_sources =
      bundle :=
  ⟨rfl, rfl, rfl, rfl, rfl, rfl⟩

/-- Claim C9 fails on the code: `MilvusVectorDB._ensure_collection`, which
runs at vector-store construction (not on any ingestion path), drops a
non-empty existing collection and replaces it with a fresh empty one. -/
theorem ensure_collection_replaces_nonempty_index :
    MilvusVectorDB.get_collection_count oneRowState = 1 ∧
    MilvusVectorDB.ensure_collection oneRowState ≠ oneRowState ∧
    MilvusVectorDB.ensure_collection oneRowState = { collection := some [] } ∧
    MilvusVectorDB.get_collection_count
      (MilvusVectorDB.ensure_collection oneRowState) = 0 := by
  refine ⟨rfl, ?_, rfl, rfl⟩
  decide

/-- Claim C9 amended: besides initialization (whose `_ensure_collection`
always replaces the collection with an empty one), the document-RAG
adapter mutates the index only through its lazy-ingest path: `RAGTool._run`
either returns the index unchanged, or the index was empty, document paths
were supplied, and the final index state is exactly the state produced by
`_load_documents` (the ingestion). -/
theorem vector_index_mutation_frame (env : RAGEnv) (st : VectorDBState)
    (q : String) (k : Nat) (paths : List String) :
    MilvusVectorDB.ensure_collection st = { collection := some [] } ∧
    ((RAGTool.run env st q k paths).2 = st ∨
      (MilvusVectorDB.get_collection_count st = 0 ∧ paths ≠ [] ∧
        (RAGTool.run env st q k paths).2 = (RAGTool.load_documents env st paths).2)) := by
  refine ⟨rfl, ?_⟩
  by_cases h0 : MilvusVectorDB.get_collection_count st = 0
  · by_cases hp : paths = []
    · left
      simp [RAGTool.run, h0, hp]
    · right
      refine ⟨h0, hp, ?_⟩
      rcases hld : RAGTool.load_documents env st paths with ⟨r, st'⟩
      simp only [RAGTool.run, h0, hp, hld, if_true, if_neg hp]
      by_cases hr : r.status = .ERROR
      · simp [hr]
      · by_cases hc : MilvusVectorDB.get_collection_count st' = 0
        · simp [hr, hc]
        · simp [hr, hc]
  · left
    simp [RAGTool.run, h0]

/-- Claim C1: for each of the four Source Adapters, a backend call that
raises is caught and converted into a well-formed ERROR Evidence Record
carrying the failure description; no exception reaches the caller (each
embedded `run` is a total function into `EvidenceRecord`). -/
theorem adapters_convert_backend_exceptions_to_error_records :
    (∀ (env : RAGEnv) (st : VectorDBState) (q : String) (k : Nat)
        (paths : List String) (e : String),
      MilvusVectorDB.get_collection_count st ≠ 0 →
      env.retrieveContext q k = .error e →
      (RAGTool.run env st q k paths).1.status = .ERROR ∧
      (RAGTool.run env st q k paths).1.answer = "RAG search failed: " ++ e ∧
      (RAGTool.run env st q k paths).1.error = some e) ∧
    (∀ (env : MemoryEnv) (q e : String),
      env.getContextBlock = .error e →
      (MemoryTool.run env q).status = .ERROR ∧
      (MemoryTool.run env q).answer = "Memory retrieval failed: " ++ e) ∧
    (∀ (env : WebEnv) (q : String) (l : Nat) (e : String),
      env.api_key ≠ "" →
      env.search q l = .error e →
      (FirecrawlSearchTool.run env q l).status = .ERROR ∧
      (FirecrawlSearchTool.run env q l).answer =
        "Web search unavailable due to technical issues: " ++ e ∧
      (FirecrawlSearchTool.run env q l).error = some e) ∧
    (∀ (env : ArxivEnv) (q sf : String) (cat au : Option String) (m : Nat) (e : String),
      (env.httpResponse (ArxivTool.build_arxiv_query q sf cat au) = .error e ∨
        (∃ body, env.httpResponse (ArxivTool.build_arxiv_query q sf cat au) = .ok body ∧
          env.parsePapers body = .error e)) →
      (ArxivTool.run env q sf cat au m).status = .ERROR ∧
      (ArxivTool.run env q sf cat au m).answer = "ArXiv search failed: " ++ e ∧
      (ArxivTool.run env q sf cat au m).error = some e) := by
  refine ⟨?_, ?_, ?_, ?_⟩
  · intro env st q k paths e hcount hret
    simp [RAGTool.run, hcount, ragRetrievePhase, hret]
  · intro env q e h
    simp [MemoryTool.run, h]
  · intro env q l e hkey hsearch
    simp [FirecrawlSearchTool.run, hkey, hsearch]
  · intro env q sf cat au m e h
    rcases h with h | ⟨body, hok, hparse⟩
    · simp [ArxivTool.run, h]
    · simp [ArxivTool.run, hok, hparse]

/-- Witness for claim C1: each adapter applied to a concrete throwing
backend yields the concrete ERROR record. -/
theorem adapters_convert_backend_exceptions_to_error_records_witness :
    ((RAGTool.run throwingRAGEnv oneRowState "q" 3 []).1.status = .ERROR ∧
      (RAGTool.run throwingRAGEnv oneRowState "q" 3 []).1.answer =
        "RAG search failed: " ++ "connection refused" ∧
      (RAGTool.run throwingRAGEnv oneRowState "q" 3 []).1.error =
        some "connection refused") ∧
    ((MemoryTool.run ⟨.error "zep down"⟩ "q").status = .ERROR ∧
      (MemoryTool.run ⟨.error "zep down"⟩ "q").answer =
        "Memory retrieval failed: " ++ "zep down") ∧
    ((FirecrawlSearchTool.run ⟨"key", fun _ _ => .error "net down"⟩ "q" 3).status = .ERROR ∧
      (FirecrawlSearchTool.run ⟨"key", fun _ _ => .error "net down"⟩ "q" 3).answer =
        "Web search unavailable due to technical issues: " ++ "net down" ∧
      (FirecrawlSearchTool.run ⟨"key", fun _ _ => .error "net down"⟩ "q" 3).error =
        some "net down") ∧
    ((ArxivTool.run ⟨fun _ => .error "timeout", fun _ => .ok []⟩ "q" "all" none none 5).status = .ERROR ∧
      (ArxivTool.run ⟨fun _ => .error "timeout", fun _ => .ok []⟩ "q" "all" none none 5).answer =
        "ArXiv search failed: " ++ "timeout" ∧
      (ArxivTool.run ⟨fun _ => .error "timeout", fun _ => .ok []⟩ "q" "all" none none 5).error =
        some "timeout") :=
  ⟨adapters_convert_backend_exceptions_to_error_records.1 throwingRAGEnv oneRowState
      "q" 3 [] "connection refused" (by decide) rfl,
   adapters_convert_backend_exceptions_to_error_records.2.1 ⟨.error "zep down"⟩
      "q" "zep down" rfl,
   adapters_convert_backend_exceptions_to_error_records.2.2.1
      ⟨"key", fun _ _ => .error "net down"⟩ "q" 3 "net down" (by decide) rfl,
   adapters_convert_backend_exceptions_to_error_records.2.2.2
      ⟨fun _ => .error "timeout", fun _ => .ok []⟩ "q" "all" none none 5 "timeout"
      (Or.inl rfl)⟩

/-- Claim C5: for each of the four Source Adapters, a backend call that
succeeds with an empty result set (no hits, no papers, empty memory context)
yields an INSUFFICIENT_CONTEXT Evidence Record — neither ERROR nor OK. -/
theorem adapters_empty_results_yield_insufficient_context :
    (∀ (env : RAGEnv) (st : VectorDBState) (q : String) (k : Nat)
        (paths : List String),
      MilvusVectorDB.get_collection_count st ≠ 0 →
      env.retrieveContext q k = .ok [] →
      (RAGTool.run env st q k paths).1.status = .INSUFFICIENT_CONTEXT) ∧
    (∀ (env : MemoryEnv) (q : String),
      env.getContextBlock = .ok "" →
      (MemoryTool.run env q).status = .INSUFFICIENT_CONTEXT) ∧
    (∀ (env : WebEnv) (q : String) (l : Nat),
      env.api_key ≠ "" →
      env.search q l = .ok (some []) →
      (FirecrawlSearchTool.run env q l).status = .INSUFFICIENT_CONTEXT) ∧
    (∀ (env : ArxivEnv) (q sf : String) (cat au : Option String) (m : Nat)
        (body : String),
      env.httpResponse (ArxivTool.build_arxiv_query q sf cat au) = .ok body →
      env.parsePapers body = .ok [] →
      (ArxivTool.run env q sf cat au m).status = .INSUFFICIENT_CONTEXT) := by
  refine ⟨?_, ?_, ?_, ?_⟩
  · intro env st q k paths hcount hret
    simp [RAGTool.run, hcount, ragRetrievePhase, hret]
  · intro env q h
    simp [MemoryTool.run, h]
  · intro env q l hkey hsearch
    simp [FirecrawlSearchTool.run, hkey, hsearch]
  · intro env q sf cat au m body hok hparse
    simp [ArxivTool.run, hok, hparse]

/-- Witness for claim C5: each adapter applied to a concrete empty-result
backend reports INSUFFICIENT_CONTEXT. -/
theorem adapters_empty_results_yield_insufficient_context_witness :
    (RAGTool.run emptyResultRAGEnv oneRowState "q" 3 []).1.status =
      .INSUFFICIENT_CONTEXT ∧
    (MemoryTool.run ⟨.ok ""⟩ "q").status = .INSUFFICIENT_CONTEXT ∧
    (FirecrawlSearchTool.run ⟨"key", fun _ _ => .ok (some [])⟩ "q" 3).status =
      .INSUFFICIENT_CONTEXT ∧
    (ArxivTool.run ⟨fun _ => .ok "<feed/>", fun _ => .ok []⟩ "q" "all" none none 5).status =
      .INSUFFICIENT_CONTEXT :=
  ⟨adapters_empty_results_yield_insufficient_context.1 emptyResultRAGEnv oneRowState
      "q" 3 [] (by decide) rfl,
   adapters_empty_results_yield_insufficient_context.2.1 ⟨.ok ""⟩ "q" rfl,
   adapters_empty_results_yield_insufficient_context.2.2.1
      ⟨"key", fun _ _ => .ok (some [])⟩ "q" 3 (by decide) rfl,
   adapters_empty_results_yield_insufficient_context.2.2.2
      ⟨fun _ => .ok "<feed/>", fun _ => .ok []⟩ "q" "all" none none 5 "<feed/>" rfl rfl⟩

theorem conforming_fields_present (fields : List (String × Json))
    (h : conformsToResponseSchema (.obj fields) = true) :
    ∀ k ∈ schemaRequiredFields, ((Json.obj fields).getField k).isSome := by
  simp only [conformsToResponseSchema, Bool.and_eq_true] at h
  obtain ⟨⟨⟨⟨⟨⟨_h1, h2⟩, h3⟩, h4⟩, h5⟩, h6⟩, h7⟩ := h
  intro k hk
  simp only [schemaRequiredFields, List.mem_cons, List.not_mem_nil, or_false] at hk
  rcases hk with rfl | rfl | rfl | rfl | rfl | rfl
  · cases hx : (Json.obj fields).getField "status" <;> rw [hx] at h2
    · cases h2
    · rfl
  · cases hx : (Json.obj fields).getField "source_used" <;> rw [hx] at h3
    · cases h3
    · rfl
  · cases hx : (Json.obj fields).getField "answer" <;> rw [hx] at h4
    · cases h4
    · rfl
  · cases hx : (Json.obj fields).getField "citations" <;> rw [hx] at h5
    · cases h5
    · rfl
  · cases hx : (Json.obj fields).getField "confidence" <;> rw [hx] at h6
    · cases h6
    · rfl
  · cases hx : (Json.obj fields).getField "missing" <;> rw [hx] at h7
    · cases h7
    · rfl

/-- Claim C7 fails on the code: `StructuredResponseGen.generate` performs no
client-side validation against `RESPONSE_SCHEMA`.  A model response that is
valid JSON but violates the schema (the empty object, missing every
required field) is returned as a record, not raised as an error — the
returned record still lacks five of the six required fields. -/
theorem generate_accepts_schema_violating_json_counterexample :
    conformsToResponseSchema (Json.obj []) = false ∧
    StructuredResponseGen.generate emptyObjectJsonLoads (.ok "{}") "RAG" =
      .ok (.obj [("source_used", .str "RAG")]) ∧
    hasRequiredFields (.obj [("source_used", .str "RAG")]) = false :=
  ⟨rfl, rfl, rfl⟩

/-- Claim C7 amended: `generate` raises when the completions payload cannot
be read or the model response is not valid JSON; a response that is valid
JSON and conforms to `RESPONSE_SCHEMA` is returned as a record that retains
all six required fields, with source_used overwritten by the caller's
argument.  Schema conformance itself is not checked client-side (it is
delegated to the model API's strict mode; see the counterexample). -/
theorem generate_hard_failure_and_conforming_result_spec :
    (∀ (jl : String → Option Json) (src e : String),
      StructuredResponseGen.generate jl (.error e) src =
        .error ("Unexpected responses payload shape: " ++ e)) ∧
    (∀ (jl : String → Option Json) (t src : String), jl t = none →
      StructuredResponseGen.generate jl (.ok t) src =
        .error ("Model did not return valid JSON: JSONDecodeError\nRaw: " ++
          t.take 400)) ∧
    (∀ (jl : String → Option Json) (t src : String) (fields : List (String × Json)),
      jl t = some (.obj fields) →
      conformsToResponseSchema (.obj fields) = true →
      StructuredResponseGen.generate jl (.ok t) src =
        .ok (.obj (setField fields "source_used" (.str src))) ∧
      hasRequiredFields (.obj (setField fields "source_used" (.str src))) = true ∧
      (Json.obj (setField fields "source_used" (.str src))).getField "source_used" =
        some (.str src)) := by
  refine ⟨?_, ?_, ?_⟩
  · intro jl src e
    rfl
  · intro jl t src h
    simp [StructuredResponseGen.generate, h]
  · intro jl t src fields hj hc
    refine ⟨by simp [StructuredResponseGen.generate, hj], ?_, getField_setField_self fields _ _⟩
    have hpresent := conforming_fields_present fields hc
    simp only [hasRequiredFields, List.all_eq_true]
    intro k hk
    by_cases hsrc : k = "source_used"
    · subst hsrc
      rw [getField_setField_self fields _ _]
      rfl
    · rw [getField_setField_other fields _ k _ hsrc]
      exact hpresent k hk

/-- Witness for claim C7 (amended) at concrete inputs: an unreadable payload
and a non-JSON response raise; a conforming reply is returned with all
required fields and the caller's source label. -/
theorem generate_hard_failure_and_conforming_result_spec_witness :
    StructuredResponseGen.generate failingJsonLoads (.error "no choices") "RAG" =
      .error ("Unexpected responses payload shape: " ++ "no choices") ∧
    StructuredResponseGen.generate failingJsonLoads (.ok "not json") "RAG" =
      .error ("Model did not return valid JSON: JSONDecodeError\nRaw: " ++
        ("not json").take 400) ∧
    StructuredResponseGen.generate conformingJsonLoads (.ok "x") "RAG" =
      .ok (.obj (setField conformingFields "source_used" (.str "RAG"))) ∧
    hasRequiredFields (.obj (setField conformingFields "source_used" (.str "RAG"))) =
      true ∧
    (Json.obj (setField conformingFields "source_used" (.str "RAG"))).getField
      "source_used" = some (.str "RAG") :=
  ⟨generate_hard_failure_and_conforming_result_spec.1 failingJsonLoads "RAG" "no choices",
   generate_hard_failure_and_conforming_result_spec.2.1 failingJsonLoads "not json"
      "RAG" rfl,
   (generate_hard_failure_and_conforming_result_spec.2.2 conformingJsonLoads "x"
      "RAG" conformingFields rfl (by decide)).1,
   (generate_hard_failure_and_conforming_result_spec.2.2 conformingJsonLoads "x"
      "RAG" conformingFields rfl (by decide)).2.1,
   (generate_hard_failure_and_conforming_result_spec.2.2 conformingJsonLoads "x"
      "RAG" conformingFields rfl (by decide)).2.2⟩

/-- Claim C8 fails on the code: the document-RAG adapter's OK-branch
confidence is the raw maximum of the backend's similarity scores, with no
clamping.  A backend hit scored 2.0 yields an Evidence Record whose
confidence is 2, outside [0,1]. -/
theorem rag_confidence_outside_unit_interval_counterexample :
    (RAGTool.run highScoreRAGEnv oneRowState "q" 3 []).1.confidence = 2 ∧
    ¬ (RAGTool.run highScoreRAGEnv oneRowState "q" 3 []).1.confidence ≤ 1 := by
  refine ⟨rfl, ?_⟩
  intro hle
  rw [show (RAGTool.run highScoreRAGEnv oneRowState "q" 3 []).1.confidence = 2 from rfl]
      at hle
  norm_num at hle

theorem load_documents_confidence_bounds (env : RAGEnv) (st : VectorDBState)
    (paths : List String) :
    0 ≤ (RAGTool.load_documents env st paths).1.confidence ∧
    (RAGTool.load_documents env st paths).1.confidence ≤ 1 := by
  unfold RAGTool.load_documents
  dsimp only
  repeat' split
  all_goals norm_num

theorem ragRetrievePhase_confidence_bounds (env : RAGEnv) (q : String) (k : Nat)
    (hs : ∀ (q' : String) (k' : Nat) (l : List ChunkResult),
      env.retrieveContext q' k' = .ok l → ∀ r ∈ l, 0 ≤ r.score ∧ r.score ≤ 1) :
    0 ≤ (ragRetrievePhase env q k).confidence ∧
    (ragRetrievePhase env q k).confidence ≤ 1 := by
  rcases h : env.retrieveContext q k with e | l
  · simp only [ragRetrievePhase, h]
    norm_num
  · cases l with
    | nil =>
      simp only [ragRetrievePhase, h]
      norm_num
    | cons a rest =>
      simp only [ragRetrievePhase, h]
      constructor
      · refine listMax_nonneg _ ?_
        intro x hx
        rcases List.mem_map.mp hx with ⟨r, hr, rfl⟩
        exact (hs q k (a :: rest) h r hr).1
      · refine listMax_le_one _ ?_
        intro x hx
        rcases List.mem_map.mp hx with ⟨r, hr, rfl⟩
        exact (hs q k (a :: rest) h r hr).2

/-- Claim C8 amended: the memory, web-search and academic-search adapters
always emit confidences inside [0,1] (they use the fixed values 0.98, 0.97,
0.92 and 0.0); the document-RAG adapter's confidence lies in [0,1] whenever
every similarity score returned by its backend does — but it is the raw
maximum score, so out-of-range backend scores pass through (see the
counterexample). -/
theorem adapter_confidence_in_unit_interval :
    (∀ (env : MemoryEnv) (q : String),
      0 ≤ (MemoryTool.run env q).confidence ∧ (MemoryTool.run env q).confidence ≤ 1) ∧
    (∀ (env : WebEnv) (q : String) (l : Nat),
      0 ≤ (FirecrawlSearchTool.run env q l).confidence ∧
      (FirecrawlSearchTool.run env q l).confidence ≤ 1) ∧
    (∀ (env : ArxivEnv) (q sf : String) (cat au : Option String) (m : Nat),
      0 ≤ (ArxivTool.run env q sf cat au m).confidence ∧
      (ArxivTool.run env q sf cat au m).confidence ≤ 1) ∧
    (∀ (env : RAGEnv) (st : VectorDBState) (q : String) (k : Nat)
        (paths : List String),
      (∀ (q' : String) (k' : Nat) (l : List ChunkResult),
        env.retrieveContext q' k' = .ok l → ∀ r ∈ l, 0 ≤ r.score ∧ r.score ≤ 1) →
      0 ≤ (RAGTool.run env st q k paths).1.confidence ∧
      (RAGTool.run env st q k paths).1.confidence ≤ 1) := by
  refine ⟨?_, ?_, ?_, ?_⟩
  · intro env q
    rcases h : env.getContextBlock with e | c
    · simp only [MemoryTool.run, h]
      norm_num
    · by_cases hc : c = ""
      · simp only [MemoryTool.run, h, hc]
        norm_num
      · simp only [MemoryTool.run, h, if_pos hc]
        norm_num
  · intro env q l
    by_cases hk : env.api_key = ""
    · simp only [FirecrawlSearchTool.run, if_pos hk]
      norm_num
    · rcases h : env.search q l with e | o
      · simp only [FirecrawlSearchTool.run, if_neg hk, h]
        norm_num
      · cases o with
        | none =>
          simp only [FirecrawlSearchTool.run, if_neg hk, h]
          norm_num
        | some l' =>
          cases l' with
          | nil =>
            simp only [FirecrawlSearchTool.run, if_neg hk, h]
            norm_num
          | cons a rest =>
            simp only [FirecrawlSearchTool.run, if_neg hk, h]
            norm_num
  · intro env q sf cat au m
    rcases h : env.httpResponse (ArxivTool.build_arxiv_query q sf cat au) with e | body
    · simp only [ArxivTool.run, h]
      norm_num
    · rcases h2 : env.parsePapers body with e | ps
      · simp only [ArxivTool.run, h, h2]
        norm_num
      · cases ps with
        | nil =>
          simp only [ArxivTool.run, h, h2]
          norm_num
        | cons a rest =>
          simp only [ArxivTool.run, h, h2]
          norm_num
  · intro env st q k paths hscores
    simp only [RAGTool.run]
    by_cases h0 : MilvusVectorDB.get_collection_count st = 0
    · rw [if_pos h0]
      by_cases hp : paths = []
      · rw [if_pos hp]
        norm_num
      · rw [if_neg hp]
        rcases hld : RAGTool.load_documents env st paths with ⟨r, st'⟩
        simp only [hld]
        by_cases hr : r.status = .ERROR
        · rw [if_pos hr]
          have hb := load_documents_confidence_bounds env st paths
          rw [hld] at hb
          exact hb
        · rw [if_neg hr]
          by_cases hc : MilvusVectorDB.get_collection_count st' = 0
          · rw [if_pos hc]
            norm_num
          · rw [if_neg hc]
            exact ragRetrievePhase_confidence_bounds env q k hscores
    · rw [if_neg h0]
      exact ragRetrievePhase_confidence_bounds env q k hscores

/-- Witness for claim C8 (amended) at concrete inputs. -/
theorem adapter_confidence_in_unit_interval_witness :
    (0 ≤ (MemoryTool.run ⟨.ok "hello"⟩ "q").confidence ∧
      (MemoryTool.run ⟨.ok "hello"⟩ "q").confidence ≤ 1) ∧
    (0 ≤ (FirecrawlSearchTool.run ⟨"key", fun _ _ => .ok none⟩ "q" 3).confidence ∧
      (FirecrawlSearchTool.run ⟨"key", fun _ _ => .ok none⟩ "q" 3).confidence ≤ 1) ∧
    (0 ≤ (ArxivTool.run ⟨fun _ => .error "down", fun _ => .ok []⟩ "q" "all" none none 5).confidence ∧
      (ArxivTool.run ⟨fun _ => .error "down", fun _ => .ok []⟩ "q" "all" none none 5).confidence ≤ 1) ∧
    (0 ≤ (RAGTool.run emptyResultRAGEnv oneRowState "q" 3 []).1.confidence ∧
      (RAGTool.run emptyResultRAGEnv oneRowState "q" 3 []).1.confidence ≤ 1) :=
  ⟨adapter_confidence_in_unit_interval.1 ⟨.ok "hello"⟩ "q",
   adapter_confidence_in_unit_interval.2.1 ⟨"key", fun _ _ => .ok none⟩ "q" 3,
   adapter_confidence_in_unit_interval.2.2.1
      ⟨fun _ => .error "down", fun _ => .ok []⟩ "q" "all" none none 5,
   adapter_confidence_in_unit_interval.2.2.2 emptyResultRAGEnv oneRowState "q" 3 []
      (by
        intro q' k' l hl r hr
        injection hl with h2
        subst h2
        cases hr)⟩

theorem rfind_isLast (c : Char) : ∀ l : List Char, IsLastIdx (fun a => a = c) l (rfind c l)
  | [] => by
    left
    refine ⟨rfl, ?_⟩
    intro i c' h
    simp at h
  | a :: l => by
    have ih := rfind_isLast c l
    rcases ih with ⟨hneg, hnone⟩ | ⟨j, hj, ⟨c', hget, hc'⟩, hmax⟩
    · simp only [rfind, hneg]
      norm_num
      by_cases hac : a = c
      · rw [if_pos hac]
        right
        refine ⟨0, rfl, ⟨a, by simp, by simp [hac]⟩, ?_⟩
        intro i c' hi hget
        cases i with
        | zero => omega
        | succ i' =>
          rw [List.get?_cons_succ] at hget
          exact hnone i' c' hget
      · rw [if_neg hac]
        left
        refine ⟨rfl, ?_⟩
        intro i c' hget
        cases i with
        | zero =>
          rw [List.get?_cons_zero, Option.some.injEq] at hget
          subst hget
          simp [hac]
        | succ i' =>
          rw [List.get?_cons_succ] at hget
          exact hnone i' c' hget
    · simp only [rfind, hj]
      rw [if_pos (by positivity : (0:Int) ≤ (j:Int))]
      right
      refine ⟨j + 1, by push_cast; ring, ⟨c', by simpa using hget, hc'⟩, ?_⟩
      intro i c'' hi hget
      cases i with
      | zero => omega
      | succ i' =>
        rw [List.get?_cons_succ] at hget
        exact hmax i' c'' (by omega) hget

theorem isLast_max (p q : Char → Bool) (l : List Char) (r s : Int)
    (hp : IsLastIdx p l r) (hq : IsLastIdx q l s) :
    IsLastIdx (fun a => p a || q a) l (max r s) := by
  rcases hp with ⟨hr, hpn⟩ | ⟨j, rfl, ⟨c, hc, hpc⟩, hpm⟩
  · rcases hq with ⟨hs, hqn⟩ | ⟨j', rfl, ⟨c', hc', hqc'⟩, hqm⟩
    · left
      refine ⟨by rw [hr, hs]; rfl, ?_⟩
      intro i c hi
      simp [hpn i c hi, hqn i c hi]
    · right
      refine ⟨j', ?_, ⟨c', hc', by simp [hqc']⟩, ?_⟩
      · rw [hr, max_eq_right (show (-1:Int) ≤ (j':Int) by omega)]
      · intro i c'' hij hi
        simp [hpn i c'' hi, hqm i c'' hij hi]
  · rcases hq with ⟨hs, hqn⟩ | ⟨j', rfl, ⟨c', hc', hqc'⟩, hqm⟩
    · right
      refine ⟨j, ?_, ⟨c, hc, by simp [hpc]⟩, ?_⟩
      · rw [hs, max_eq_left (show (-1:Int) ≤ (j:Int) by omega)]
      · intro i c'' hij hi
        simp [hpm i c'' hij hi, hqn i c'' hi]
    · rcases le_total j j' with hjj | hjj
      · right
        refine ⟨j', ?_, ⟨c', hc', by simp [hqc']⟩, ?_⟩
        · rw [max_eq_right (show (j:Int) ≤ (j':Int) by exact_mod_cast hjj)]
        · intro i c'' hij hi
          simp [hpm i c'' (by omega) hi, hqm i c'' hij hi]
      · right
        refine ⟨j, ?_, ⟨c, hc, by simp [hpc]⟩, ?_⟩
        · rw [max_eq_left (show (j':Int) ≤ (j:Int) by exact_mod_cast hjj)]
        · intro i c'' hij hi
          simp [hpm i c'' hij hi, hqm i c'' (by omega) hi]

theorem isLast_right_of_nonneg (p : Char → Bool) (l : List Char) (r : Int)
    (h : IsLastIdx p l r) (hr : 0 ≤ r) :
    ∃ j : Nat, r = (j : Int) ∧ (∃ c, l.get? j = some c ∧ p c = true) ∧
      ∀ i c, j < i → l.get? i = some c → p c = false := by
  rcases h with ⟨hneg, _⟩ | hright
  · omega
  · exact hright

theorem isLast_lt_of_witness (p : Char → Bool) (l : List Char) (r : Int) (t : Int)
    (h : IsLastIdx p l r) (i : Nat) (c : Char) (hi : l.get? i = some c)
    (hc : p c = true) (ht : t < 10 * (i : Int)) : t < 10 * r := by
  rcases h with ⟨_, hnone⟩ | ⟨j, rfl, _, hmax⟩
  · rw [hnone i c hi] at hc
    cases hc
  · have hij : i ≤ j := by
      by_contra hlt
      push_neg at hlt
      rw [hmax i c hlt hi] at hc
      cases hc
    have : (i : Int) ≤ (j : Int) := by exact_mod_cast hij
    omega

theorem summarize_truncation_branches (s : List Char) (m : Nat) (h : ¬ s.length ≤ m) :
    summarize_for_memory s m =
      (if 10 * (max (rfind '.' (s.take m))
            (max (rfind '!' (s.take m)) (rfind '?' (s.take m)))) > 7 * (m : Int) then
        (s.take m).take ((max (rfind '.' (s.take m))
            (max (rfind '!' (s.take m)) (rfind '?' (s.take m)))) + 1).toNat ++
          sentenceMarker
      else if 10 * rfind ' ' (s.take m) > 8 * (m : Int) then
        (s.take m).take (rfind ' ' (s.take m)).toNat ++ ellipsisMarker
      else (s.take m) ++ ellipsisMarker) := by
  rw [summarize_for_memory, if_neg h]

/-- Claim C4: `_summarize_for_memory` returns inputs within the budget
unchanged; longer inputs are returned as a pre-marker prefix of the
m-character cut (so of length at most m) followed by a truncation marker,
and the cut point prefers the last sentence boundary lying in the tail 30%
of the budget, falls back to the last word boundary lying in the tail 20%,
and otherwise hard-cuts at m characters. -/
theorem summarize_for_memory_spec (s : List Char) (m : Nat) :
    (s.length ≤ m → summarize_for_memory s m = s) ∧
    (m < s.length →
      (∃ pre, pre <+: s.take m ∧ pre.length ≤ m ∧
        (summarize_for_memory s m = pre ++ sentenceMarker ∨
         summarize_for_memory s m = pre ++ ellipsisMarker)) ∧
      ((∃ (i : Nat) (c : Char), (s.take m).get? i = some c ∧ isSentenceChar c = true ∧
          7 * m < 10 * i) →
        ∃ (j : Nat) (c : Char), (s.take m).get? j = some c ∧ isSentenceChar c = true ∧
          7 * m < 10 * j ∧
          (∀ (i : Nat) (c' : Char), j < i → (s.take m).get? i = some c' →
            isSentenceChar c' = false) ∧
          summarize_for_memory s m = (s.take m).take (j + 1) ++ sentenceMarker) ∧
      ((∀ (i : Nat) (c : Char), (s.take m).get? i = some c → isSentenceChar c = true →
          10 * i ≤ 7 * m) →
       (∃ i : Nat, (s.take m).get? i = some ' ' ∧ 8 * m < 10 * i) →
        ∃ j : Nat, (s.take m).get? j = some ' ' ∧ 8 * m < 10 * j ∧
          (∀ i : Nat, j < i → (s.take m).get? i ≠ some ' ') ∧
          summarize_for_memory s m = (s.take m).take j ++ ellipsisMarker) ∧
      ((∀ (i : Nat) (c : Char), (s.take m).get? i = some c → isSentenceChar c = true →
          10 * i ≤ 7 * m) →
       (∀ i : Nat, (s.take m).get? i = some ' ' → 10 * i ≤ 8 * m) →
        summarize_for_memory s m = s.take m ++ ellipsisMarker)) := by
  constructor
  · intro hle
    rw [summarize_for_memory, if_pos hle]
  · intro hgt
    have hnot : ¬ s.length ≤ m := by omega
    have hbr := summarize_truncation_branches s m hnot
    have hL : IsLastIdx isSentenceChar (s.take m)
        (max (rfind '.' (s.take m)) (max (rfind '!' (s.take m)) (rfind '?' (s.take m)))) :=
      isLast_max _ _ _ _ _ (rfind_isLast '.' (s.take m))
        (isLast_max _ _ _ _ _ (rfind_isLast '!' (s.take m)) (rfind_isLast '?' (s.take m)))
    have hSP : IsLastIdx (fun a => a = ' ') (s.take m) (rfind ' ' (s.take m)) :=
      rfind_isLast ' ' (s.take m)
    by_cases hcond : 10 * (max (rfind '.' (s.take m))
        (max (rfind '!' (s.take m)) (rfind '?' (s.take m)))) > 7 * (m : Int)
    · rw [if_pos hcond] at hbr
      have hL0 : 0 ≤ max (rfind '.' (s.take m))
          (max (rfind '!' (s.take m)) (rfind '?' (s.take m))) := by omega
      obtain ⟨j, hLj, ⟨c, hgetc, hpc⟩, hmax⟩ :=
        isLast_right_of_nonneg _ _ _ hL hL0
      rw [hLj] at hbr hcond
      have htn : ((j : Int) + 1).toNat = j + 1 := by omega
      rw [htn] at hbr
      have h7 : 7 * m < 10 * j := by exact_mod_cast hcond
      refine ⟨⟨(s.take m).take (j + 1), List.take_prefix _ _, ?_, Or.inl hbr⟩,
        ?_, ?_, ?_⟩
      · simp only [List.length_take]
        omega
      · intro _
        exact ⟨j, c, hgetc, hpc, h7, hmax, hbr⟩
      · intro hno _
        exact absurd (hno j c hgetc hpc) (by omega)
      · intro hno _
        exact absurd (hno j c hgetc hpc) (by omega)
    · rw [if_neg hcond] at hbr
      have hnosent : ∀ (i : Nat) (c : Char), (s.take m).get? i = some c →
          isSentenceChar c = true → 10 * i ≤ 7 * m := by
        intro i c hi hc
        by_contra hlt
        push_neg at hlt
        have := isLast_lt_of_witness isSentenceChar (s.take m) _ (7 * (m : Int)) hL i c hi hc
          (by exact_mod_cast hlt)
        omega
      have hvac : ¬ (∃ (i : Nat) (c : Char), (s.take m).get? i = some c ∧
          isSentenceChar c = true ∧ 7 * m < 10 * i) := by
        rintro ⟨i, c, hi, hc, hlt⟩
        exact absurd (hnosent i c hi hc) (by omega)
      by_cases hcond2 : 10 * rfind ' ' (s.take m) > 8 * (m : Int)
      · rw [if_pos hcond2] at hbr
        have hSP0 : 0 ≤ rfind ' ' (s.take m) := by omega
        obtain ⟨j, hSPj, ⟨c, hgetc, hpc⟩, hmax⟩ :=
          isLast_right_of_nonneg _ _ _ hSP hSP0
        have hceq : c = ' ' := of_decide_eq_true hpc
        subst hceq
        rw [hSPj] at hbr hcond2
        have htn : ((j : Int)).toNat = j := by omega
        rw [htn] at hbr
        have h8 : 8 * m < 10 * j := by exact_mod_cast hcond2
        refine ⟨⟨(s.take m).take j, List.take_prefix _ _, ?_, Or.inr hbr⟩, ?_, ?_, ?_⟩
        · simp only [List.length_take]
          omega
        · intro htrig
          exact absurd htrig hvac
        · intro _ _
          refine ⟨j, hgetc, h8, ?_, hbr⟩
          intro i hij hi
          have := hmax i ' ' hij hi
          simp at this
        · intro _ hnospace
          exact absurd (hnospace j hgetc) (by omega)
      · rw [if_neg hcond2] at hbr
        refine ⟨⟨s.take m, List.prefix_refl _, ?_, Or.inr hbr⟩, ?_, ?_, ?_⟩
        · simp only [List.length_take]
          omega
        · intro htrig
          exact absurd htrig hvac
        · intro _ htrig
          obtain ⟨i, hi, hlt⟩ := htrig
          have := isLast_lt_of_witness (fun a => a = ' ') (s.take m) _ (8 * (m : Int)) hSP
            i ' ' hi (by simp) (by exact_mod_cast hlt)
          omega
        · intro _ _
          exact hbr

/-- Witness for claim C4 at concrete inputs: a short input is returned
unchanged; a long input is cut to a ≤10-character prefix plus marker, at
the last sentence boundary inside the tail 30% of the budget. -/
theorem summarize_for_memory_spec_witness :
    summarize_for_memory "hi".data 10 = "hi".data ∧
    (∃ pre, pre <+: ("Hello Bob. Morexxx".data.take 10) ∧ pre.length ≤ 10 ∧
      (summarize_for_memory "Hello Bob. Morexxx".data 10 = pre ++ sentenceMarker ∨
       summarize_for_memory "Hello Bob. Morexxx".data 10 = pre ++ ellipsisMarker)) ∧
    (∃ (j : Nat) (c : Char), ("Hello Bob. Morexxx".data.take 10).get? j = some c ∧
      isSentenceChar c = true ∧ 7 * 10 < 10 * j ∧
      (∀ (i : Nat) (c' : Char), j < i →
        ("Hello Bob. Morexxx".data.take 10).get? i = some c' →
        isSentenceChar c' = false) ∧
      summarize_for_memory "Hello Bob. Morexxx".data 10 =
        ("Hello Bob. Morexxx".data.take 10).take (j + 1) ++ sentenceMarker) :=
  ⟨(summarize_for_memory_spec "hi".data 10).1 (by decide),
   ((summarize_for_memory_spec "Hello Bob. Morexxx".data 10).2 (by decide)).1,
   ((summarize_for_memory_spec "Hello Bob. Morexxx".data 10).2 (by decide)).2.1
     ⟨9, '.', by decide, by decide, by decide⟩⟩
